import Mathlib

/-!
Verification of the MiScore record-data engine (`src/miscore/record_data.py`).

The Python source is shallowly embedded: pydantic models become Lean
structures, pydantic validation (field parsing plus `model_validator`
hooks) becomes `Except`-valued functions over a small JSON value type,
and the file-mutating operations (`load`, `save`, `add_game_to_file`,
`add_record_to_file`) become explicit state-passing functions.  Python
exceptions are modelled by the `PyErr` type; an `assert` that fails inside
a validator is `PyErr.assertionError`, iterating over `None` is
`PyErr.typeError`, and so on.
-/

set_option autoImplicit false

namespace MiScore

/-- Python exception kinds that the embedded code can raise.  pydantic wraps
`AssertionError`/`ValueError` into validation errors and lets other
exceptions (such as `TypeError` from iterating `None`) propagate; for the
purposes of these theorems both simply make validation fail. -/
inductive PyErr where
  | typeError
  | assertionError
  | attributeError
  | keyError
  | fileNotFound
  | jsonDecode
  | missingField
  | wrongType
  | unknownEnum
  | extraForbidden
  deriving DecidableEq, Repr

/-! ### The duration parser `RecordData._parse_time_input`

The Python function strips the input, then tries four regexes in order:
`^\d{1,2}:\d{2}:\d{2}$` (H:MM:SS), `^\d{1,3}:\d{2}$` (M:SS), the compound
form `(?:(\d+)h)?(?:(\d+)m)?(?:(\d+)s)?$` on the lowercased input
(requiring at least one group), and `^\d+$` (bare seconds); anything else
raises `ValueError`.  The embedding works on `List Char` and returns the
total number of seconds. -/

/-- Numeric value of a run of ASCII digits (the `int(...)` calls). -/
def digitsToNat (l : List Char) : Nat :=
  l.foldl (fun n c => n * 10 + (c.toNat - 48)) 0

/-- `\d+`: a non-empty run of ASCII digits. -/
def allDigits (l : List Char) : Bool :=
  !l.isEmpty && l.all Char.isDigit

/-- The `^\d{1,2}:\d{2}:\d{2}$` branch: hours, minutes, seconds. -/
def hmsParse (cs : List Char) : Option Nat :=
  match cs.splitOn ':' with
  | [h, m, s] =>
    if allDigits h && h.length ≤ 2 && allDigits m && m.length = 2 &&
        allDigits s && s.length = 2 then
      some (digitsToNat h * 3600 + digitsToNat m * 60 + digitsToNat s)
    else
      none
  | _ => none

/-- The `^\d{1,3}:\d{2}$` branch: minutes and seconds. -/
def msParse (cs : List Char) : Option Nat :=
  match cs.splitOn ':' with
  | [m, s] =>
    if allDigits m && m.length ≤ 3 && allDigits s && s.length = 2 then
      some (digitsToNat m * 60 + digitsToNat s)
    else
      none
  | _ => none

/-- One optional `(?:(\d+)x)?` group of the compound regex: read a maximal
digit run; if it is non-empty and followed by the marker letter, consume
both and yield the value, otherwise consume nothing.  (The regex cannot
match such a group with a shorter digit run, since the character after any
shorter run is again a digit, so this deterministic reading is exact.) -/
def grabComponent (marker : Char) (cs : List Char) : Option Nat × List Char :=
  let ds := cs.takeWhile Char.isDigit
  let rest := cs.dropWhile Char.isDigit
  match rest with
  | r :: rs =>
    if !ds.isEmpty && r = marker then (some (digitsToNat ds), rs)
    else (none, cs)
  | [] => (none, cs)

/-- The compound `(?:(\d+)h)?(?:(\d+)m)?(?:(\d+)s)?$` branch, applied to the
lowercased input and requiring at least one matched group. -/
def compoundParse (cs : List Char) : Option Nat :=
  let lcs := cs.map Char.toLower
  let (h, r1) := grabComponent 'h' lcs
  let (m, r2) := grabComponent 'm' r1
  let (s, r3) := grabComponent 's' r2
  if r3.isEmpty && (h.isSome || m.isSome || s.isSome) then
    some (h.getD 0 * 3600 + m.getD 0 * 60 + s.getD 0)
  else
    none

/-- The `^\d+$` branch: a bare integer meaning seconds. -/
def bareParse (cs : List Char) : Option Nat :=
  if allDigits cs then some (digitsToNat cs) else none

/-- The `ValueError` message raised when no pattern matches (inner quotes of
the Python message omitted). -/
def timeErrMsg (cs : List Char) : String :=
  "Invalid time format: " ++ String.mk cs ++
    ". Use HH:MM:SS, MM:SS, 1h30m45s, 90m, or 5400s"

/-- The body of `_parse_time_input` after `strip()`: the four patterns are
tried in source order, first match wins. -/
def parseTimeCore (cs : List Char) : Except String Nat :=
  match hmsParse cs with
  | some n => .ok n
  | none =>
    match msParse cs with
    | some n => .ok n
    | none =>
      match compoundParse cs with
      | some n => .ok n
      | none =>
        match bareParse cs with
        | some n => .ok n
        | none => .error (timeErrMsg cs)

/-- Python `str.strip()`: drop whitespace from both ends. -/
def pyStrip (cs : List Char) : List Char :=
  ((cs.dropWhile Char.isWhitespace).reverse.dropWhile Char.isWhitespace).reverse

/-- `RecordData._parse_time_input`, as a function from the raw input string
to total seconds. -/
def parseTimeInput (s : String) : Except String Nat :=
  parseTimeCore (pyStrip s.data)

instance {ε α : Type} [DecidableEq ε] [DecidableEq α] :
    DecidableEq (Except ε α) := fun
  | .ok a, .ok b => decidable_of_iff (a = b) (by simp)
  | .error a, .error b => decidable_of_iff (a = b) (by simp)
  | .ok _, .error _ => isFalse (by simp)
  | .error _, .ok _ => isFalse (by simp)

/-! ### The typed data model

`CompletedRecordEntry` and its three subclasses form a discriminated union
keyed by `entry_type`, so the in-memory value is a sum type.  Dates are kept
as their ISO text (the claims never compute with dates), `timedelta` values
as total seconds, and `score` as an integer (the claims use only integral
scores; floating point itself is not modelled). -/

/-- The four record-entry variants.  Field order matches the pydantic
classes: `date`, `description`, `screenshot`, then the variant-specific
field. -/
inductive Entry where
  | completed (date : String) (description : Option String)
      (screenshot : Option String)
  | atDifficulty (date : String) (description : Option String)
      (screenshot : Option String) (difficulty : String)
  | timed (date : String) (description : Option String)
      (screenshot : Option String) (time : Nat)
  | scored (date : String) (description : Option String)
      (screenshot : Option String) (score : Int)
  deriving DecidableEq, Repr

/-- The `RecordTypeOptions` string enum. -/
inductive RecordTypeOptions where
  | completed
  | completed_at_difficulty
  | fastest_time
  | longest_time
  | high_score
  | low_score
  deriving DecidableEq, Repr

/-- The `RecordType` model: `records` is `Optional` with default `None`. -/
structure RecordType where
  name : String
  description : Option String
  type : RecordTypeOptions
  records : Option (List Entry)
  deriving DecidableEq, Repr

/-- The `Game` model. -/
structure Game where
  name : String
  difficulties : Option (List String)
  record_types : Option (List RecordType)
  deriving DecidableEq, Repr

/-- The root `RecordData` model. -/
structure RecordData where
  games : List Game
  deriving DecidableEq, Repr

/-! ### `isinstance` checks used by `RecordType.check_record_entry_types`

All three specialised entry classes are declared as subclasses of
`CompletedRecordEntry`, so `isinstance(r, CompletedRecordEntry)` is true
for every variant; the other three checks hit exactly one variant. -/

/-- `isinstance(r, CompletedRecordEntry)`: true for every variant, because
`CompletedAtDifficultyRecordEntry`, `TimeRecordEntry` and
`ScoreRecordEntry` all inherit from `CompletedRecordEntry`. -/
def isinstanceCompleted : Entry → Bool := fun _ => true

/-- `isinstance(r, CompletedAtDifficultyRecordEntry)`. -/
def isinstanceAtDifficulty : Entry → Bool
  | .atDifficulty _ _ _ _ => true
  | _ => false

/-- `isinstance(r, TimeRecordEntry)`. -/
def isinstanceTimed : Entry → Bool
  | .timed _ _ _ _ => true
  | _ => false

/-- `isinstance(r, ScoreRecordEntry)`. -/
def isinstanceScored : Entry → Bool
  | .scored _ _ _ _ => true
  | _ => false

/-- `for r in records: assert p(r)` where `records` may be `None`:
iterating `None` raises `TypeError`, a failing `assert` raises
`AssertionError`. -/
def assertAllEntries (p : Entry → Bool) (records : Option (List Entry)) :
    Except PyErr Unit :=
  match records with
  | none => .error .typeError
  | some rs => if rs.all p then .ok () else .error .assertionError

/-- `RecordType.check_record_entry_types`: the `mode="after"` model
validator.  Every branch iterates `values.records` without a `None`
guard. -/
def check_record_entry_types (rt : RecordType) : Except PyErr RecordType := do
  let chk : Except PyErr Unit :=
    match rt.type with
    | .completed => assertAllEntries isinstanceCompleted rt.records
    | .completed_at_difficulty => assertAllEntries isinstanceAtDifficulty rt.records
    | .fastest_time | .longest_time => assertAllEntries isinstanceTimed rt.records
    | .high_score | .low_score => assertAllEntries isinstanceScored rt.records
  let _ ← chk
  return rt

/-- Python attribute access `entry.difficulty`: only the AtDifficulty
variant has the attribute; on any other class it raises
`AttributeError`. -/
def entryDifficulty : Entry → Except PyErr String
  | .atDifficulty _ _ _ d => .ok d
  | _ => .error .attributeError

/-- `for entry in rt.records: assert entry.difficulty in difficulties`. -/
def checkEntriesDiff (ds : List String) : List Entry → Except PyErr Unit
  | [] => .ok ()
  | e :: es => do
    let d ← entryDifficulty e
    if d ∈ ds then checkEntriesDiff ds es else .error .assertionError

/-- The record-type loop of `Game.check_record_entry_difficulty`: only
`completed_at_difficulty` record types with non-`None` `records` are
checked. -/
def checkRTsDiff (ds : List String) : List RecordType → Except PyErr Unit
  | [] => .ok ()
  | rt :: rts => do
    let _ ←
      if rt.type = .completed_at_difficulty then
        match rt.records with
        | some rs => checkEntriesDiff ds rs
        | none => .ok ()
      else
        .ok ()
    checkRTsDiff ds rts

/-- `Game.check_record_entry_difficulty`: the whole check is skipped unless
both `difficulties` and `record_types` are non-`None`. -/
def check_record_entry_difficulty (g : Game) : Except PyErr Game :=
  match g.difficulties, g.record_types with
  | some ds, some rts => do
    let _ ← checkRTsDiff ds rts
    return g
  | _, _ => .ok g

/-! ### Full (re-)validation of a typed tree

`RecordData(**record_data.model_dump())` re-validates the whole tree:
field-level validation (in particular the `FilePath` existence check on
`screenshot`, against the set `fs` of existing files) runs on each entry,
then each `RecordType` and `Game` model validator.  Nested models validate
before their parent's `mode="after"` validator. -/

/-- Run a check on every element, stopping at the first error. -/
def firstErr {α : Type} (f : α → Except PyErr Unit) : List α → Except PyErr Unit
  | [] => .ok ()
  | x :: xs => do
    let _ ← f x
    firstErr f xs

/-- The `screenshot` field of any variant. -/
def Entry.screenshot : Entry → Option String
  | .completed _ _ ss => ss
  | .atDifficulty _ _ ss _ => ss
  | .timed _ _ ss _ => ss
  | .scored _ _ ss _ => ss

/-- pydantic `FilePath` validation: a present `screenshot` must name an
existing file. -/
def validateEntryScreenshot (fs : List String) (e : Entry) : Except PyErr Unit :=
  match e.screenshot with
  | none => .ok ()
  | some p => if p ∈ fs then .ok () else .error .fileNotFound

/-- Re-validate one `RecordType`: entry fields first, then its model
validator. -/
def validateRecordTypeTyped (fs : List String) (rt : RecordType) :
    Except PyErr RecordType := do
  let _ ← firstErr (validateEntryScreenshot fs) (rt.records.getD [])
  check_record_entry_types rt

/-- `validateRecordTypeTyped` with its result discarded. -/
def validateRTUnit (fs : List String) (rt : RecordType) : Except PyErr Unit :=
  match validateRecordTypeTyped fs rt with
  | .error e => .error e
  | .ok _ => .ok ()

/-- Re-validate one `Game`: its record types first, then its model
validator. -/
def validateGameTyped (fs : List String) (g : Game) : Except PyErr Game := do
  let _ ← firstErr (validateRTUnit fs) (g.record_types.getD [])
  check_record_entry_difficulty g

/-- `validateGameTyped` with its result discarded. -/
def validateGameUnit (fs : List String) (g : Game) : Except PyErr Unit :=
  match validateGameTyped fs g with
  | .error e => .error e
  | .ok _ => .ok ()

/-- Re-validate a whole document, as `RecordData(**rd.model_dump())`
does. -/
def validateRecordDataTyped (fs : List String) (rd : RecordData) :
    Except PyErr RecordData := do
  let _ ← firstErr (validateGameUnit fs) rd.games
  return rd

/-! ### Raw JSON documents

`json.load` produces nested dicts/lists; `_preprocess_json_data` rewrites
that raw structure before pydantic sees it.  Numbers are restricted to
integers (no claim computes with fractional values) and objects are
association lists without duplicate keys, looked up front to back. -/

/-- A raw JSON value. -/
inductive Json where
  | null
  | bool (b : Bool)
  | num (n : Int)
  | str (s : String)
  | arr (xs : List Json)
  | obj (kvs : List (String × Json))

/-- `d[k]` / `k in d` on a dict. -/
def lookupKey : List (String × Json) → String → Option Json
  | [], _ => none
  | (k, v) :: kvs, key => if k = key then some v else lookupKey kvs key

/-- `d[k] = v`: overwrite in place, or append when the key is absent. -/
def setKey : List (String × Json) → String → Json → List (String × Json)
  | [], k, v => [(k, v)]
  | (k0, v0) :: kvs, k, v =>
    if k0 = k then (k0, v) :: kvs else (k0, v0) :: setKey kvs k v

/-- `value.replace("\\", "/")` on a path string. -/
def normSlashes (s : String) : String :=
  String.mk (s.data.map (fun c => if c = '\\' then '/' else c))

/-- The `record_type.type` → `entry_type` inference table of
`_preprocess_json_data`; unknown types hit the final `continue`. -/
def inferEntryType : String → Option String
  | "completed" => some "completed"
  | "completed_at_difficulty" => some "completed_at_difficulty"
  | "fastest_time" => some "time"
  | "longest_time" => some "time"
  | "high_score" => some "score"
  | "low_score" => some "score"
  | _ => none

/-- Per-record step of `_preprocess_json_data`: add `entry_type` when
absent, then normalise a truthy `screenshot` string.  Non-dict records
(which would make Python's `in` test misbehave or crash) pass through. -/
def preprocessRecord (et : String) (r : Json) : Json :=
  match r with
  | .obj kvs =>
    let kvs1 :=
      match lookupKey kvs "entry_type" with
      | some _ => kvs
      | none => kvs ++ [("entry_type", .str et)]
    let kvs2 :=
      match lookupKey kvs1 "screenshot" with
      | some (.str p) =>
        if p = "" then kvs1 else setKey kvs1 "screenshot" (.str (normSlashes p))
      | _ => kvs1
    .obj kvs2
  | other => other

/-- Per-record-type step: skipped when `records` is missing, `None`, or
empty (falsy), and when the declared `type` is unknown. -/
def preprocessRecordType (j : Json) : Json :=
  match j with
  | .obj kvs =>
    match lookupKey kvs "records" with
    | some (.arr (r :: rs)) =>
      match lookupKey kvs "type" with
      | some (.str t) =>
        match inferEntryType t with
        | some et =>
          .obj (setKey kvs "records" (.arr ((r :: rs).map (preprocessRecord et))))
        | none => .obj kvs
      | _ => .obj kvs
    | _ => .obj kvs
  | other => other

/-- Per-game step: skipped when `record_types` is missing or `None`. -/
def preprocessGame (j : Json) : Json :=
  match j with
  | .obj kvs =>
    match lookupKey kvs "record_types" with
    | some (.arr rts) =>
      .obj (setKey kvs "record_types" (.arr (rts.map preprocessRecordType)))
    | _ => .obj kvs
  | other => other

/-- `RecordData._preprocess_json_data`: a no-op unless the document is a
dict containing `games`. -/
def preprocessJson (j : Json) : Json :=
  match j with
  | .obj kvs =>
    match lookupKey kvs "games" with
    | some (.arr gs) => .obj (setKey kvs "games" (.arr (gs.map preprocessGame)))
    | _ => .obj kvs
  | other => other

/-! ### Parsing raw JSON into the typed models

This embeds pydantic model construction from dicts.  `Game`, `RecordType`
and `RecordData` keep pydantic's default `extra="ignore"` behaviour (only
the declared keys are read, unknown keys are dropped); the four entry
classes are declared with `extra="forbid"` and reject any unknown key.
Entries are dispatched on the `entry_type` discriminator. -/

/-- A required text field (`name`, `difficulty`). -/
def parseReqStrField : Option Json → Except PyErr String
  | some (.str s) => .ok s
  | none => .error .missingField
  | some _ => .error .wrongType

/-- An optional text field (`description`): absent and `null` both map to
`None`. -/
def parseOptStrField : Option Json → Except PyErr (Option String)
  | none => .ok none
  | some .null => .ok none
  | some (.str s) => .ok (some s)
  | some _ => .error .wrongType

/-- The required `date: Union[date, datetime]` field.  The ISO text is kept
verbatim; parsing of the calendar value itself is abstracted away (no
claim computes with dates). -/
def parseDateField : Option Json → Except PyErr String
  | some (.str s) => .ok s
  | none => .error .missingField
  | some _ => .error .wrongType

/-- The optional `screenshot: FilePath` field: a present path must name an
existing file (`fs` is the set of files that exist relative to the
document's directory). -/
def parseScreenshotField (fs : List String) :
    Option Json → Except PyErr (Option String)
  | none => .ok none
  | some .null => .ok none
  | some (.str p) => if p ∈ fs then .ok (some p) else .error .fileNotFound
  | some _ => .error .wrongType

/-- pydantic `timedelta` parsing, restricted to the `H:MM:SS` text that
`save` (`str(timedelta)`) produces for sub-day durations, plus plain
numbers of seconds. -/
def parseTimedeltaStr (s : String) : Except PyErr Nat :=
  match s.data.splitOn ':' with
  | [h, m, s2] =>
    if allDigits h && allDigits m && m.length = 2 && allDigits s2 &&
        s2.length = 2 then
      .ok (digitsToNat h * 3600 + digitsToNat m * 60 + digitsToNat s2)
    else
      .error .wrongType
  | _ => .error .wrongType

/-- The required `time: timedelta` field. -/
def parseTimeField : Option Json → Except PyErr Nat
  | some (.num n) => if 0 ≤ n then .ok n.toNat else .error .wrongType
  | some (.str s) => parseTimedeltaStr s
  | none => .error .missingField
  | some _ => .error .wrongType

/-- The required `score: float` field (restricted to integral values). -/
def parseScoreField : Option Json → Except PyErr Int
  | some (.num n) => .ok n
  | none => .error .missingField
  | some _ => .error .wrongType

/-- `extra="forbid"`: every present key must be a declared field. -/
def checkExtraForbidden (allowed : List String) (kvs : List (String × Json)) :
    Except PyErr Unit :=
  if kvs.all (fun kv => allowed.contains kv.1) then .ok ()
  else .error .extraForbidden

/-- Construct one entry from a dict, dispatching on the `entry_type`
discriminator. -/
def parseEntry (fs : List String) (j : Json) : Except PyErr Entry :=
  match j with
  | .obj kvs =>
    let base : List String := ["entry_type", "date", "description", "screenshot"]
    match lookupKey kvs "entry_type" with
    | some (.str "completed") => do
      let _ ← checkExtraForbidden base kvs
      let d ← parseDateField (lookupKey kvs "date")
      let de ← parseOptStrField (lookupKey kvs "description")
      let ss ← parseScreenshotField fs (lookupKey kvs "screenshot")
      return .completed d de ss
    | some (.str "completed_at_difficulty") => do
      let _ ← checkExtraForbidden (base ++ ["difficulty"]) kvs
      let d ← parseDateField (lookupKey kvs "date")
      let de ← parseOptStrField (lookupKey kvs "description")
      let ss ← parseScreenshotField fs (lookupKey kvs "screenshot")
      let diff ← parseReqStrField (lookupKey kvs "difficulty")
      return .atDifficulty d de ss diff
    | some (.str "time") => do
      let _ ← checkExtraForbidden (base ++ ["time"]) kvs
      let d ← parseDateField (lookupKey kvs "date")
      let de ← parseOptStrField (lookupKey kvs "description")
      let ss ← parseScreenshotField fs (lookupKey kvs "screenshot")
      let t ← parseTimeField (lookupKey kvs "time")
      return .timed d de ss t
    | some (.str "score") => do
      let _ ← checkExtraForbidden (base ++ ["score"]) kvs
      let d ← parseDateField (lookupKey kvs "date")
      let de ← parseOptStrField (lookupKey kvs "description")
      let ss ← parseScreenshotField fs (lookupKey kvs "screenshot")
      let sc ← parseScoreField (lookupKey kvs "score")
      return .scored d de ss sc
    | some _ => .error .unknownEnum
    | none => .error .missingField
  | _ => .error .wrongType

/-- Parse each element of a `records` array. -/
def parseEntries (fs : List String) : List Json → Except PyErr (List Entry)
  | [] => .ok []
  | j :: js => do
    let e ← parseEntry fs j
    let es ← parseEntries fs js
    return e :: es

/-- The `RecordTypeOptions` enum from its wire text. -/
def parseRTOption : String → Except PyErr RecordTypeOptions
  | "completed" => .ok .completed
  | "completed_at_difficulty" => .ok .completed_at_difficulty
  | "fastest_time" => .ok .fastest_time
  | "longest_time" => .ok .longest_time
  | "high_score" => .ok .high_score
  | "low_score" => .ok .low_score
  | _ => .error .unknownEnum

/-- Wire text of a `RecordTypeOptions` value. -/
def rtOptionStr : RecordTypeOptions → String
  | .completed => "completed"
  | .completed_at_difficulty => "completed_at_difficulty"
  | .fastest_time => "fastest_time"
  | .longest_time => "longest_time"
  | .high_score => "high_score"
  | .low_score => "low_score"

/-- Construct one `RecordType` from a dict (unknown keys ignored), then run
its model validator. -/
def parseRecordType (fs : List String) (j : Json) : Except PyErr RecordType :=
  match j with
  | .obj kvs => do
    let nm ← parseReqStrField (lookupKey kvs "name")
    let de ← parseOptStrField (lookupKey kvs "description")
    let ty ←
      match lookupKey kvs "type" with
      | some (.str t) => parseRTOption t
      | none => .error .missingField
      | some _ => .error .wrongType
    let recs ←
      match lookupKey kvs "records" with
      | none => .ok none
      | some .null => .ok none
      | some (.arr es) => (parseEntries fs es).map some
      | some _ => .error .wrongType
    check_record_entry_types ⟨nm, de, ty, recs⟩
  | _ => .error .wrongType

/-- Parse each element of a `record_types` array. -/
def parseRecordTypes (fs : List String) : List Json → Except PyErr (List RecordType)
  | [] => .ok []
  | j :: js => do
    let rt ← parseRecordType fs j
    let rts ← parseRecordTypes fs js
    return rt :: rts

/-- A `List[str]` field value. -/
def parseStrList : List Json → Except PyErr (List String)
  | [] => .ok []
  | .str s :: js => (parseStrList js).map (s :: ·)
  | _ :: _ => .error .wrongType

/-- Construct one `Game` from a dict (unknown keys ignored), then run its
model validator. -/
def parseGame (fs : List String) (j : Json) : Except PyErr Game :=
  match j with
  | .obj kvs => do
    let nm ← parseReqStrField (lookupKey kvs "name")
    let diffs ←
      match lookupKey kvs "difficulties" with
      | none => .ok none
      | some .null => .ok none
      | some (.arr xs) => (parseStrList xs).map some
      | some _ => .error .wrongType
    let rts ←
      match lookupKey kvs "record_types" with
      | none => .ok none
      | some .null => .ok none
      | some (.arr xs) => (parseRecordTypes fs xs).map some
      | some _ => .error .wrongType
    check_record_entry_difficulty ⟨nm, diffs, rts⟩
  | _ => .error .wrongType

/-- Parse each element of the `games` array. -/
def parseGames (fs : List String) : List Json → Except PyErr (List Game)
  | [] => .ok []
  | j :: js => do
    let g ← parseGame fs j
    let gs ← parseGames fs js
    return g :: gs

/-- Construct the root `RecordData` from a dict (unknown keys ignored). -/
def parseRecordData (fs : List String) (j : Json) : Except PyErr RecordData :=
  match j with
  | .obj kvs => do
    let gs ←
      match lookupKey kvs "games" with
      | some (.arr xs) => parseGames fs xs
      | none => .error .missingField
      | some _ => .error .wrongType
    return ⟨gs⟩
  | _ => .error .wrongType

/-! ### Serialisation: `RecordData.save`

`save` dumps the tree to nested dicts (`model_dump`), normalises path
separators (`_normalize_paths_for_save`) and writes JSON with
`default=str`, which renders dates as their ISO text and `timedelta`
values via `str(timedelta)`. -/

/-- Two-digit rendering used inside `str(timedelta)`. -/
def pad2 (k : Nat) : String :=
  if k < 10 then "0" ++ toString k else toString k

/-- `str(timedelta(seconds=n))`: `H:MM:SS`, with a day prefix past 24h. -/
def timedeltaStr (n : Nat) : String :=
  let d := n / 86400
  let r := n % 86400
  let core := toString (r / 3600) ++ ":" ++ pad2 (r % 3600 / 60) ++ ":" ++ pad2 (r % 60)
  if d = 0 then core
  else toString d ++ (if d = 1 then " day, " else " days, ") ++ core

/-- Dump an optional text field. -/
def dumpOptStr : Option String → Json
  | none => .null
  | some s => .str s

/-- Dump a `screenshot` value with forward slashes. -/
def dumpScreenshotJson : Option String → Json
  | none => .null
  | some p => .str (normSlashes p)

/-- Dump one entry; key order matches pydantic field order. -/
def dumpEntry : Entry → Json
  | .completed d de ss =>
    .obj [("entry_type", .str "completed"), ("date", .str d),
      ("description", dumpOptStr de), ("screenshot", dumpScreenshotJson ss)]
  | .atDifficulty d de ss diff =>
    .obj [("entry_type", .str "completed_at_difficulty"), ("date", .str d),
      ("description", dumpOptStr de), ("screenshot", dumpScreenshotJson ss),
      ("difficulty", .str diff)]
  | .timed d de ss t =>
    .obj [("entry_type", .str "time"), ("date", .str d),
      ("description", dumpOptStr de), ("screenshot", dumpScreenshotJson ss),
      ("time", .str (timedeltaStr t))]
  | .scored d de ss sc =>
    .obj [("entry_type", .str "score"), ("date", .str d),
      ("description", dumpOptStr de), ("screenshot", dumpScreenshotJson ss),
      ("score", .num sc)]

/-- Dump one `RecordType`; `records=None` becomes JSON `null`, an empty
list stays an empty array. -/
def dumpRecordType (rt : RecordType) : Json :=
  .obj [("name", .str rt.name), ("description", dumpOptStr rt.description),
    ("type", .str (rtOptionStr rt.type)),
    ("records", match rt.records with
      | none => .null
      | some rs => .arr (rs.map dumpEntry))]

/-- Dump one `Game`. -/
def dumpGame (g : Game) : Json :=
  .obj [("name", .str g.name),
    ("difficulties", match g.difficulties with
      | none => .null
      | some ds => .arr (ds.map .str)),
    ("record_types", match g.record_types with
      | none => .null
      | some rts => .arr (rts.map dumpRecordType))]

/-- `RecordData.save`, as the JSON value written to disk. -/
def dumpRecordData (rd : RecordData) : Json :=
  .obj [("games", .arr (rd.games.map dumpGame))]

/-! ### The persisted file and `RecordData.load` -/

/-- Contents of the JSON file on disk: either bytes that do not parse as
JSON, or a JSON value. -/
inductive FileBytes where
  | malformed
  | json (j : Json)

/-- Parse-and-validate stored bytes: `json.load`, then
`_preprocess_json_data`, then `RecordData(**json_data)`. -/
def loadBytes (fs : List String) : FileBytes → Except PyErr RecordData
  | .malformed => .error .jsonDecode
  | .json j => parseRecordData fs (preprocessJson j)

/-- Process-global state touched by `load`: the current working
directory. -/
structure SysState where
  cwd : String
  deriving DecidableEq, Repr

/-- `RecordData.load(filename)`.  `st` is the state at entry, `dir` the
directory containing the file, `contents` the file's bytes (`none` when
the file cannot be opened) and `fs` the files existing in `dir`.  The
function does `os.chdir(dir)` first and only reaches the restoring
`os.chdir(old_wd)` on the success path: there is no `try/finally`, so
every raising path returns with the working directory still set to
`dir`. -/
def RecordData.load (st : SysState) (dir : String) (contents : Option FileBytes)
    (fs : List String) : Except PyErr RecordData × SysState :=
  let stIn : SysState := ⟨dir⟩
  match contents with
  | none => (.error .fileNotFound, stIn)
  | some .malformed => (.error .jsonDecode, stIn)
  | some (.json j) =>
    match parseRecordData fs (preprocessJson j) with
    | .error e => (.error e, stIn)
    | .ok rd => (.ok rd, st)

/-! ### `RecordData.add_game_to_file`

The interactive collaborator (difficulty / record-type prompting) is an
external input: it only determines the `difficulties` and `record_types`
of the new `Game`, whose name is always the requested one.  Constructing
`Game(...)` runs its model validator; the later
`RecordData(**record_data.model_dump())` re-validates the whole tree, and
the file is only written after that succeeds.  A load or validation error
propagates uncaught (the function does not catch exceptions). -/
def add_game_to_file (fs : List String) (gameName : String)
    (newDiffs : Option (List String)) (newRts : Option (List RecordType))
    (st : Option FileBytes) : Except PyErr (Bool × Option FileBytes) :=
  match st with
  | some bytes => do
    let rd ← loadBytes fs bytes
    if rd.games.any (fun g => g.name == gameName) then
      return (false, st)
    else do
      let newGame ← check_record_entry_difficulty ⟨gameName, newDiffs, newRts⟩
      let rd2 : RecordData := ⟨rd.games ++ [newGame]⟩
      let validated ← validateRecordDataTyped fs rd2
      return (true, some (.json (dumpRecordData validated)))
  | none => do
    let newGame ← check_record_entry_difficulty ⟨gameName, newDiffs, newRts⟩
    let rd2 : RecordData := ⟨[newGame]⟩
    let validated ← validateRecordDataTyped fs rd2
    return (true, some (.json (dumpRecordData validated)))

/-! ### `RecordData.add_record_to_file`

The interactive steps are external inputs: a game choice, a record-type
choice (selection loops only ever return an in-range index or `None` for
a cancel) and the collected details.  Every failure path returns `False`
before `save` is reached; only the final success path writes. -/

/-- The details dict produced by `_collect_record_details_interactive`:
type-specific fields are present only when collected. -/
structure RecordDetails where
  date : String
  description : Option String
  screenshot : Option String
  difficulty : Option String
  time : Option Nat
  score : Option Int
  deriving DecidableEq, Repr

/-- `_create_record_entry` plus pydantic construction of the entry: a
missing type-specific detail is a `KeyError`, and the `FilePath` check on
`screenshot` runs when the model is built. -/
def createRecordEntry (fs : List String) (t : RecordTypeOptions)
    (d : RecordDetails) : Except PyErr Entry := do
  let mk : Except PyErr (Option String → Entry) :=
    match t with
    | .completed => .ok (.completed d.date d.description)
    | .completed_at_difficulty =>
      match d.difficulty with
      | some diff => .ok (fun ss => .atDifficulty d.date d.description ss diff)
      | none => .error .keyError
    | .fastest_time | .longest_time =>
      match d.time with
      | some t => .ok (fun ss => .timed d.date d.description ss t)
      | none => .error .keyError
    | .high_score | .low_score =>
      match d.score with
      | some s => .ok (fun ss => .scored d.date d.description ss s)
      | none => .error .keyError
  let f ← mk
  let _ ←
    match d.screenshot with
    | none => Except.ok ()
    | some p => if p ∈ fs then .ok () else .error (PyErr.fileNotFound)
  return f d.screenshot

/-- Append `e` to the records of record type `ri` of game `gi`,
initialising `records` to `[]` first when it was `None` (the in-place
mutation of the loaded tree). -/
def addEntryAt (rd : RecordData) (gi ri : Nat) (e : Entry) : RecordData :=
  match rd.games.get? gi with
  | none => rd
  | some g =>
    match (g.record_types.getD []).get? ri with
    | none => rd
    | some rt =>
      let rt2 := { rt with records := some (rt.records.getD [] ++ [e]) }
      let g2 := { g with record_types := some ((g.record_types.getD []).set ri rt2) }
      { rd with games := rd.games.set gi g2 }

/-- `RecordData.add_record_to_file`.  Returns the reported boolean and the
file contents after the call. -/
def add_record_to_file (fs : List String) (interactive : Bool)
    (gameChoice rtChoice : Option Nat) (details : Option RecordDetails)
    (st : Option FileBytes) : Bool × Option FileBytes :=
  match st with
  | none => (false, none)
  | some bytes =>
    match loadBytes fs bytes with
    | .error _ => (false, st)
    | .ok rd =>
      if rd.games.isEmpty then (false, st)
      else if !interactive then (false, st)
      else
        match gameChoice.bind rd.games.get? with
        | none => (false, st)
        | some g =>
          match g.record_types with
          | none => (false, st)
          | some [] => (false, st)
          | some (rt0 :: rts) =>
            match rtChoice.bind (rt0 :: rts).get? with
            | none => (false, st)
            | some rt =>
              match details with
              | none => (false, st)
              | some d =>
                match createRecordEntry fs rt.type d with
                | .error _ => (false, st)
                | .ok e =>
                  match validateRecordDataTyped fs
                      (addEntryAt rd (gameChoice.getD 0) (rtChoice.getD 0) e) with
                  | .error _ => (false, st)
                  | .ok v => (true, some (.json (dumpRecordData v)))

/-! ### Helper predicates and lemmas -/

/-- The spec's `type` → variant table (`completed`→Plain,
`completed_at_difficulty`→AtDifficulty, `{fastest,longest}_time`→Timed,
`{high,low}_score`→Scored), with the `completed` row as the code actually
checks it: `isinstance(r, CompletedRecordEntry)` holds for every
variant. -/
def entryMatchesType : RecordTypeOptions → Entry → Bool
  | .completed, e => isinstanceCompleted e
  | .completed_at_difficulty, e => isinstanceAtDifficulty e
  | .fastest_time, e => isinstanceTimed e
  | .longest_time, e => isinstanceTimed e
  | .high_score, e => isinstanceScored e
  | .low_score, e => isinstanceScored e

/-- An AtDifficulty entry whose difficulty is declared. -/
def entryDiffOk (ds : List String) : Entry → Bool
  | .atDifficulty _ _ _ d => ds.contains d
  | _ => false

theorem assertAllEntries_some_ok_iff (p : Entry → Bool) (rs : List Entry) :
    assertAllEntries p (some rs) = .ok () ↔ ∀ e ∈ rs, p e = true := by
  simp only [assertAllEntries]
  split <;> simp_all [List.all_eq_true]

theorem checkEntriesDiff_ok_iff (ds : List String) (rs : List Entry) :
    checkEntriesDiff ds rs = .ok () ↔ ∀ e ∈ rs, entryDiffOk ds e = true := by
  induction rs with
  | nil => simp [checkEntriesDiff]
  | cons e es ih =>
    cases e <;>
      simp_all [checkEntriesDiff, entryDifficulty, entryDiffOk, Bind.bind,
        Except.bind] <;>
      split <;>
      simp_all [List.contains_iff_exists_mem_beq]

theorem checkRTsDiff_ok_iff (ds : List String) (rts : List RecordType) :
    checkRTsDiff ds rts = .ok () ↔
      ∀ rt ∈ rts, rt.type = .completed_at_difficulty →
        ∀ e ∈ rt.records.getD [], entryDiffOk ds e = true := by
  induction rts with
  | nil => simp [checkRTsDiff]
  | cons rt rest ih =>
    rcases rt with ⟨nm, de, ty, recs⟩
    by_cases hty : ty = .completed_at_difficulty
    · subst hty
      cases recs with
      | none =>
        simp_all [checkRTsDiff, Bind.bind, Except.bind]
      | some rs =>
        simp only [checkRTsDiff, Bind.bind, Except.bind]
        cases hc : checkEntriesDiff ds rs with
        | error e =>
          have : ¬ ∀ x ∈ rs, entryDiffOk ds x = true := by
            intro hall
            rw [(checkEntriesDiff_ok_iff ds rs).mpr hall] at hc
            exact Except.noConfusion hc
          simp_all
        | ok u =>
          cases u
          have hall := (checkEntriesDiff_ok_iff ds rs).mp hc
          simp_all
    · cases recs <;> simp_all [checkRTsDiff, Bind.bind, Except.bind]

theorem firstErr_ok {α : Type} (f : α → Except PyErr Unit) (xs : List α)
    (h : ∀ x ∈ xs, f x = .ok ()) : firstErr f xs = .ok () := by
  induction xs with
  | nil => rfl
  | cons x rest ih =>
    simp only [firstErr, Bind.bind, Except.bind, h x (by simp)]
    exact ih fun y hy => h y (by simp [hy])

/-! ### Concrete fixtures used by the claim theorems -/

/-- A stored document whose single game has a `completed` record type
containing an entry tagged `time` (a Timed entry). -/
def completedWithTimedDoc : Json :=
  .obj [("games", .arr [.obj [("name", .str "G"),
    ("record_types", .arr [.obj [("name", .str "A"),
      ("type", .str "completed"),
      ("records", .arr [.obj [("entry_type", .str "time"),
        ("date", .str "2024-01-01"), ("time", .str "0:01:00")]])]])]])]

/-- A stored document whose single game has no `difficulties` but a
`completed_at_difficulty` record type with an entry at difficulty
`Nightmare`. -/
def cadWithoutDifficultiesDoc : Json :=
  .obj [("games", .arr [.obj [("name", .str "G"),
    ("record_types", .arr [.obj [("name", .str "R"),
      ("type", .str "completed_at_difficulty"),
      ("records", .arr [.obj [("entry_type", .str "completed_at_difficulty"),
        ("date", .str "2024-01-01"), ("difficulty", .str "Nightmare")]])]])]])]

/-- A stored document whose single record type has `records: []`. -/
def emptyRecordsDoc : Json :=
  .obj [("games", .arr [.obj [("name", .str "G"),
    ("record_types", .arr [.obj [("name", .str "A"),
      ("type", .str "completed"), ("records", .arr [])]])]])]

/-- A pre-`entry_type` document: the stored Timed entry carries no
discriminator tag. -/
def oldStyleDoc : Json :=
  .obj [("games", .arr [.obj [("name", .str "G"),
    ("record_types", .arr [.obj [("name", .str "Speed"),
      ("type", .str "fastest_time"),
      ("records", .arr [.obj [("date", .str "2024-01-01"),
        ("time", .str "1:30:45")]])]])]])]

/-- The "Hades" game of the spec scenario, with the entry's difficulty as a
parameter. -/
def hadesGame (diff : String) : Game :=
  ⟨"Hades", some ["Normal", "Hard"],
    some [⟨"Runs", none, .completed_at_difficulty,
      some [.atDifficulty "2024-01-01" none none diff]⟩]⟩

/-- The document saved by `add_game_to_file("X", f, interactive=False)` on a
fresh file. -/
def gameXDoc : Json := dumpRecordData ⟨[⟨"X", none, none⟩]⟩

/-! ### Claim C1 -/

/-- Counterexample to C1: a `RecordType` of type `completed` whose records
contain a Timed entry passes validation — both at the model-validator
level and through the full `load` pipeline — because every entry class is
an `isinstance` of `CompletedRecordEntry`. -/
theorem completed_rt_with_timed_entry_validates :
    check_record_entry_types
        ⟨"A", none, .completed, some [.timed "2024-01-01" none none 60]⟩ =
      .ok ⟨"A", none, .completed, some [.timed "2024-01-01" none none 60]⟩ ∧
    loadBytes [] (.json completedWithTimedDoc) =
      .ok ⟨[⟨"G", none, some [⟨"A", none, .completed,
        some [.timed "2024-01-01" none none 60]⟩]⟩]⟩ := by
  constructor <;> rfl

/-- C1 (amended): when `records` is present, `check_record_entry_types`
succeeds iff every entry matches the declared type under the code's
`isinstance` checks — exact variant matching for
`completed_at_difficulty`, the time types and the score types, but a
`completed` record type accepts every variant (they are all subclasses of
`CompletedRecordEntry`), so a Timed or Scored entry there does NOT fail
validation. -/
theorem check_record_entry_types_ok_iff (rt : RecordType) (rs : List Entry)
    (h : rt.records = some rs) :
    check_record_entry_types rt = .ok rt ↔
      ∀ e ∈ rs, entryMatchesType rt.type e = true := by
  rcases rt with ⟨nm, de, ty, recs⟩
  simp only at h
  subst h
  cases ty <;>
    (simp only [check_record_entry_types, assertAllEntries, entryMatchesType,
      isinstanceCompleted, Bind.bind, Except.bind]
     split_ifs with hc <;>
     simp_all [List.all_eq_true, pure, Except.pure, isinstanceCompleted])

/-- Witness for C1's amended theorem at a concrete record type. -/
theorem check_record_entry_types_ok_iff_witness :
    check_record_entry_types
        ⟨"S", none, .high_score, some [.scored "2024-01-01" none none 10]⟩ =
      .ok ⟨"S", none, .high_score, some [.scored "2024-01-01" none none 10]⟩ :=
  (check_record_entry_types_ok_iff
    ⟨"S", none, .high_score, some [.scored "2024-01-01" none none 10]⟩
    [.scored "2024-01-01" none none 10] rfl).mpr (by decide)

/-! ### Claim C2 -/

/-- Counterexample to C2: a `Game` with `difficulties=None` containing a
`completed_at_difficulty` record type (with an AtDifficulty entry)
validates successfully, both at the model level and through the full
`load` pipeline — the cross-check is guarded by
`if difficulties is not None`. -/
theorem no_difficulties_game_with_cad_validates :
    validateGameTyped []
        ⟨"G", none, some [⟨"R", none, .completed_at_difficulty,
          some [.atDifficulty "2024-01-01" none none "Nightmare"]⟩]⟩ =
      .ok ⟨"G", none, some [⟨"R", none, .completed_at_difficulty,
        some [.atDifficulty "2024-01-01" none none "Nightmare"]⟩]⟩ ∧
    loadBytes [] (.json cadWithoutDifficultiesDoc) =
      .ok ⟨[⟨"G", none, some [⟨"R", none, .completed_at_difficulty,
        some [.atDifficulty "2024-01-01" none none "Nightmare"]⟩]⟩]⟩ := by
  constructor <;> rfl

/-- C2 (amended): when a Game's `difficulties` is absent,
`check_record_entry_difficulty` is skipped entirely and succeeds, whatever
`completed_at_difficulty` record types or entries the game contains (the
interactive prompt flow refuses to create such record types, but schema
validation does not reject them). -/
theorem difficulty_check_skipped_when_difficulties_none (g : Game)
    (h : g.difficulties = none) : check_record_entry_difficulty g = .ok g := by
  rcases g with ⟨nm, diffs, rts⟩
  simp only at h
  subst h
  cases rts <;> rfl

/-- Witness for C2's amended theorem at a concrete game. -/
theorem difficulty_check_skipped_witness :
    check_record_entry_difficulty
        ⟨"G", none, some [⟨"R", none, .completed_at_difficulty,
          some [.atDifficulty "2024-01-01" none none "Nightmare"]⟩]⟩ =
      .ok ⟨"G", none, some [⟨"R", none, .completed_at_difficulty,
        some [.atDifficulty "2024-01-01" none none "Nightmare"]⟩]⟩ :=
  difficulty_check_skipped_when_difficulties_none _ rfl

/-! ### Claim C3 -/

/-- C3: the code, not the claim, is at fault.  `check_record_entry_types`
iterates `values.records` with no `None` guard, so a `RecordType` whose
`records` is absent raises `TypeError` in every branch: the "absent
records" state the spec calls valid can never be constructed or loaded
(the guards in `Game.check_record_entry_difficulty` and
`add_record_to_file` show `records=None` was meant to be legal).  A
present-but-empty `records` list does validate and is kept distinct from
`null` by `save`. -/
theorem records_absent_crashes_validator :
    check_record_entry_types ⟨"A", none, .completed, none⟩ =
      .error .typeError ∧
    parseRecordType []
        (.obj [("name", .str "A"), ("type", .str "completed")]) =
      .error .typeError ∧
    loadBytes [] (.json emptyRecordsDoc) =
      .ok ⟨[⟨"G", none, some [⟨"A", none, .completed, some []⟩]⟩]⟩ ∧
    dumpRecordType ⟨"A", none, .completed, some []⟩ =
      .obj [("name", .str "A"), ("description", .null),
        ("type", .str "completed"), ("records", .arr [])] := by
  refine ⟨rfl, rfl, rfl, rfl⟩

/-! ### Claim C4 -/

/-- C4: the code, not the claim, is at fault.  `load` calls
`os.chdir(dir)` and only restores the original working directory after
successful validation — there is no `try/finally` — so on every raising
path (unreadable file, malformed JSON, schema failure) the process is left
in the document's directory; only the success path restores it. -/
theorem load_leaves_cwd_changed_on_error_paths :
    RecordData.load ⟨"/home/user"⟩ "/data" none [] =
      (.error .fileNotFound, ⟨"/data"⟩) ∧
    RecordData.load ⟨"/home/user"⟩ "/data" (some .malformed) [] =
      (.error .jsonDecode, ⟨"/data"⟩) ∧
    RecordData.load ⟨"/home/user"⟩ "/data" (some (.json (.obj []))) [] =
      (.error .missingField, ⟨"/data"⟩) ∧
    RecordData.load ⟨"/home/user"⟩ "/data"
        (some (.json (.obj [("games", .arr [])]))) [] =
      (.ok ⟨[]⟩, ⟨"/home/user"⟩) := by
  refine ⟨rfl, rfl, rfl, rfl⟩

/-! ### Claim C5 -/

/-- C5: the duration parser tries H:MM:SS (1–2 digit hours), M:SS (1–3
digit minutes), the compound h/m/s form (at least one component), then a
bare integer of seconds, and rejects everything matching none of them; in
particular it maps the spec's example inputs exactly as listed and raises
on "invalid", "" and "1x2y3z". -/
theorem parse_time_input_spec :
    parseTimeInput "0:00:01" = .ok 1 ∧
    parseTimeInput "23:59:59" = .ok 86399 ∧
    parseTimeInput "0:30" = .ok 30 ∧
    parseTimeInput "120:00" = .ok 7200 ∧
    parseTimeInput "1h" = .ok 3600 ∧
    parseTimeInput "30m" = .ok 1800 ∧
    parseTimeInput "45s" = .ok 45 ∧
    parseTimeInput "2h30m" = .ok 9000 ∧
    parseTimeInput "0" = .ok 0 ∧
    parseTimeInput "invalid" = .error (timeErrMsg "invalid".data) ∧
    parseTimeInput "" = .error (timeErrMsg "".data) ∧
    parseTimeInput "1x2y3z" = .error (timeErrMsg "1x2y3z".data) ∧
    (∀ cs : List Char, parseTimeCore cs = .error (timeErrMsg cs) ↔
      hmsParse cs = none ∧ msParse cs = none ∧ compoundParse cs = none ∧
        bareParse cs = none) := by
  refine ⟨by decide, by decide, by decide, by decide, by decide, by decide,
    by decide, by decide, by decide, by decide, by decide, by decide, ?_⟩
  intro cs
  cases hh : hmsParse cs with
  | some n => simp [parseTimeCore, hh]
  | none =>
    cases hm : msParse cs with
    | some n => simp [parseTimeCore, hh, hm]
    | none =>
      cases hc : compoundParse cs with
      | some n => simp [parseTimeCore, hh, hm, hc]
      | none =>
        cases hb : bareParse cs with
        | some n => simp [parseTimeCore, hh, hm, hc, hb]
        | none => simp [parseTimeCore, hh, hm, hc, hb]

/-- Witness for C5's rejection characterisation at a concrete input. -/
theorem parse_time_input_spec_witness :
    parseTimeCore "abc".data = .error (timeErrMsg "abc".data) :=
  (parse_time_input_spec.2.2.2.2.2.2.2.2.2.2.2.2 "abc".data).mpr (by decide)

/-! ### Claim C6 -/

/-- C6: for a Game with `difficulties` present (and its record types
individually valid), full validation succeeds iff every entry of every
`completed_at_difficulty` record type carries a declared difficulty; in
particular the spec's "Hades" scenario rejects difficulty "Nightmare"
against ["Normal", "Hard"] and accepts "Hard". -/
theorem difficulty_membership_check_spec :
    (∀ (fs : List String) (g : Game) (ds : List String)
        (rts : List RecordType),
      g.difficulties = some ds → g.record_types = some rts →
      (∀ rt ∈ rts, validateRecordTypeTyped fs rt = .ok rt) →
      (validateGameTyped fs g = .ok g ↔
        ∀ rt ∈ rts, rt.type = .completed_at_difficulty →
          ∀ e ∈ rt.records.getD [], entryDiffOk ds e = true)) ∧
    (∀ (fs : List String) (nm : String) (ds : List String),
      validateGameTyped fs ⟨nm, some ds, none⟩ = .ok ⟨nm, some ds, none⟩) ∧
    validateGameTyped [] (hadesGame "Nightmare") = .error .assertionError ∧
    validateGameTyped [] (hadesGame "Hard") = .ok (hadesGame "Hard") := by
  refine ⟨?_, fun _ _ _ => rfl, by decide, by decide⟩
  intro fs g ds rts hd hr hv
  rcases g with ⟨nm, diffs, grts⟩
  simp only at hd hr
  subst hd
  subst hr
  have h1 : firstErr (validateRTUnit fs) rts = .ok () := by
    apply firstErr_ok
    intro rt hrt
    simp [validateRTUnit, hv rt hrt]
  simp only [validateGameTyped, Option.getD_some, h1, Bind.bind, Except.bind,
    check_record_entry_difficulty]
  cases hk : checkRTsDiff ds rts with
  | error e =>
    have : ¬ ∀ rt ∈ rts, rt.type = .completed_at_difficulty →
        ∀ x ∈ rt.records.getD [], entryDiffOk ds x = true := by
      intro hall
      rw [(checkRTsDiff_ok_iff ds rts).mpr hall] at hk
      exact Except.noConfusion hk
    simp_all
  | ok u =>
    cases u
    have hall := (checkRTsDiff_ok_iff ds rts).mp hk
    simp only [pure, Except.pure]
    exact iff_of_true trivial hall

/-- Witness for C6's characterisation at the accepted "Hades" state. -/
theorem difficulty_membership_check_spec_witness :
    validateGameTyped [] (hadesGame "Hard") = .ok (hadesGame "Hard") :=
  (difficulty_membership_check_spec.1 [] (hadesGame "Hard")
    ["Normal", "Hard"]
    [⟨"Runs", none, .completed_at_difficulty,
      some [.atDifficulty "2024-01-01" none none "Hard"]⟩]
    rfl rfl (by decide)).mpr (by decide)

/-! ### Claim C7 -/

/-- C7: `add_record_to_file` is atomic — whenever it reports failure
(missing file, load error, empty games, non-interactive mode, cancelled
selection, missing record types, failed detail collection, entry
construction error such as a nonexistent screenshot, or re-validation
failure) the stored file is exactly what it was before the call; only the
success path writes. -/
theorem add_record_failure_leaves_file_unchanged
    (fs : List String) (interactive : Bool) (gameChoice rtChoice : Option Nat)
    (details : Option RecordDetails) (st : Option FileBytes)
    (h : (add_record_to_file fs interactive gameChoice rtChoice details st).fst
      = false) :
    (add_record_to_file fs interactive gameChoice rtChoice details st).snd
      = st := by
  revert h
  unfold add_record_to_file
  repeat' first
  | (intro _; rfl)
  | split
  | (intro h; simp at h)

/-- Witness for C7 at a concrete failing call (the file does not exist). -/
theorem add_record_failure_leaves_file_unchanged_witness :
    (add_record_to_file [] true none none none none).snd = none :=
  add_record_failure_leaves_file_unchanged [] true none none none none rfl

/-! ### Claim C8 -/

/-- C8: `add_game_to_file` returns False and leaves the stored bytes
untouched when a game of the requested name already exists; otherwise it
appends a game with exactly that name, re-validates, writes, and returns
True — so the written document has exactly one game of that name, and a
second call with the same name (as in the concrete two-call run on a fresh
file) reports "already exists" without changing the file. -/
theorem add_game_spec :
    (∀ (fs : List String) (gameName : String) (nd : Option (List String))
        (nrt : Option (List RecordType)) (bytes : FileBytes) (rd : RecordData),
      loadBytes fs bytes = .ok rd →
      rd.games.any (fun g => g.name == gameName) = true →
      add_game_to_file fs gameName nd nrt (some bytes) =
        .ok (false, some bytes)) ∧
    (∀ (fs : List String) (gameName : String) (nd : Option (List String))
        (nrt : Option (List RecordType)) (bytes : FileBytes) (rd : RecordData),
      loadBytes fs bytes = .ok rd →
      rd.games.any (fun g => g.name == gameName) = false →
      check_record_entry_difficulty ⟨gameName, nd, nrt⟩ =
        .ok ⟨gameName, nd, nrt⟩ →
      validateRecordDataTyped fs ⟨rd.games ++ [⟨gameName, nd, nrt⟩]⟩ =
        .ok ⟨rd.games ++ [⟨gameName, nd, nrt⟩]⟩ →
      add_game_to_file fs gameName nd nrt (some bytes) =
        .ok (true, some (.json
          (dumpRecordData ⟨rd.games ++ [⟨gameName, nd, nrt⟩]⟩))) ∧
      ((rd.games ++ [(⟨gameName, nd, nrt⟩ : Game)]).filter
        (fun g => g.name == gameName)).length = 1) ∧
    add_game_to_file [] "X" none none none = .ok (true, some (.json gameXDoc)) ∧
    add_game_to_file [] "X" none none (some (.json gameXDoc)) =
      .ok (false, some (.json gameXDoc)) := by
  refine ⟨?_, ?_, rfl, rfl⟩
  · intro fs gameName nd nrt bytes rd hload hany
    simp [add_game_to_file, hload, hany, Bind.bind, Except.bind, pure,
      Except.pure]
  · intro fs gameName nd nrt bytes rd hload hany hchk hval
    constructor
    · simp [add_game_to_file, hload, hany, hchk, hval, Bind.bind, Except.bind,
        pure, Except.pure]
    · have hnil : rd.games.filter (fun g => g.name == gameName) = [] := by
        rw [List.filter_eq_nil_iff]
        intro g hg
        have := List.any_eq_false.mp hany g hg
        simpa using this
      simp [List.filter_append, hnil]

/-- Witness for C8's duplicate branch at the concrete saved file. -/
theorem add_game_spec_witness :
    add_game_to_file [] "X" none none (some (.json gameXDoc)) =
      .ok (false, some (.json gameXDoc)) :=
  add_game_spec.1 [] "X" none none (.json gameXDoc) ⟨[⟨"X", none, none⟩]⟩
    rfl rfl

/-! ### Claim C9 -/

/-- Fields of a JSON object (empty for non-objects). -/
def objFields : Json → List (String × Json)
  | .obj kvs => kvs
  | _ => []

theorem lookup_setKey_ne (kvs : List (String × Json)) (k k2 : String) (v : Json)
    (h : k ≠ k2) : lookupKey (setKey kvs k v) k2 = lookupKey kvs k2 := by
  induction kvs with
  | nil => simp [setKey, lookupKey, h]
  | cons kv rest ih =>
    rcases kv with ⟨k0, v0⟩
    by_cases h0 : k0 = k <;> simp [setKey, lookupKey, h0, ih] <;> simp_all

theorem lookup_append_single (kvs : List (String × Json)) (k : String) (v : Json)
    (h : lookupKey kvs k = none) : lookupKey (kvs ++ [(k, v)]) k = some v := by
  induction kvs with
  | nil => simp [lookupKey]
  | cons kv rest ih =>
    rcases kv with ⟨k0, v0⟩
    by_cases h0 : k0 = k <;> simp_all [lookupKey]

/-- C9: load-time preprocessing gives every stored entry that lacks an
`entry_type` the tag inferred from its record type's `type` (six-row
table), leaves an existing `entry_type` untouched, runs before schema
validation inside `load`, and thereby keeps pre-`entry_type` documents
loadable (concrete old-style document shown). -/
theorem preprocess_entry_type_inference_spec :
    (∀ (et : String) (kvs : List (String × Json)),
      lookupKey kvs "entry_type" = none →
      lookupKey (objFields (preprocessRecord et (.obj kvs))) "entry_type" =
        some (.str et)) ∧
    (∀ (et : String) (kvs : List (String × Json)) (v : Json),
      lookupKey kvs "entry_type" = some v →
      lookupKey (objFields (preprocessRecord et (.obj kvs))) "entry_type" =
        some v) ∧
    (∀ (kvs : List (String × Json)) (t et : String) (r : Json) (rs : List Json),
      lookupKey kvs "records" = some (.arr (r :: rs)) →
      lookupKey kvs "type" = some (.str t) →
      inferEntryType t = some et →
      preprocessRecordType (.obj kvs) =
        .obj (setKey kvs "records" (.arr ((r :: rs).map (preprocessRecord et))))) ∧
    inferEntryType "completed" = some "completed" ∧
    inferEntryType "completed_at_difficulty" = some "completed_at_difficulty" ∧
    inferEntryType "fastest_time" = some "time" ∧
    inferEntryType "longest_time" = some "time" ∧
    inferEntryType "high_score" = some "score" ∧
    inferEntryType "low_score" = some "score" ∧
    (∀ (fs : List String) (j : Json),
      loadBytes fs (.json j) = parseRecordData fs (preprocessJson j)) ∧
    loadBytes [] (.json oldStyleDoc) =
      .ok ⟨[⟨"G", none, some [⟨"Speed", none, .fastest_time,
        some [.timed "2024-01-01" none none 5445]⟩]⟩]⟩ := by
  refine ⟨?_, ?_, ?_, rfl, rfl, rfl, rfl, rfl, rfl, fun _ _ => rfl, rfl⟩
  · intro et kvs h
    simp only [preprocessRecord, h]
    have happ : lookupKey (kvs ++ [("entry_type", Json.str et)]) "entry_type" =
        some (.str et) := lookup_append_single kvs _ _ h
    cases hs : lookupKey (kvs ++ [("entry_type", Json.str et)]) "screenshot" with
    | none => simpa [objFields] using happ
    | some v0 =>
      cases v0 <;> simp only [objFields]
      case str p =>
        by_cases hp : p = "" <;>
          simp [hp, lookup_setKey_ne (kvs ++ [("entry_type", Json.str et)])
            "screenshot" "entry_type" (Json.str (normSlashes p)) (by decide),
            happ]
      all_goals simpa [objFields] using happ
  · intro et kvs v h
    simp only [preprocessRecord, h]
    cases hs : lookupKey kvs "screenshot" with
    | none => simpa [objFields] using h
    | some v0 =>
      cases v0 <;> simp only [objFields]
      case str p =>
        by_cases hp : p = "" <;>
          simp [hp, lookup_setKey_ne kvs "screenshot" "entry_type"
            (Json.str (normSlashes p)) (by decide), h]
      all_goals simpa [objFields] using h
  · intro kvs t et r rs h1 h2 h3
    simp only [preprocessRecordType, h1, h2, h3]

/-- Witness for C9's inference rule at a concrete tagless entry. -/
theorem preprocess_entry_type_inference_spec_witness :
    lookupKey (objFields (preprocessRecord "time"
        (.obj [("date", .str "2024-01-01")]))) "entry_type" =
      some (.str "time") :=
  preprocess_entry_type_inference_spec.1 "time" [("date", .str "2024-01-01")]
    rfl

/-! ### Claim C10 -/

/-- C10: only the four entry classes set `extra="forbid"` — an unknown key
in an entry dict is rejected — while `Game`, `RecordType` and the root
`RecordData` keep pydantic's default and silently drop unknown keys: the
documents with misspelled keys below validate, and the parsed values
retain no trace of the unknown key. -/
theorem extra_field_policy_spec :
    parseRecordData [] (.obj [("games", .arr []), ("bogus", .num 1)]) =
      .ok ⟨[]⟩ ∧
    parseGame [] (.obj [("name", .str "G"), ("misspeled", .num 2)]) =
      .ok ⟨"G", none, none⟩ ∧
    parseRecordType [] (.obj [("name", .str "R"), ("type", .str "completed"),
        ("records", .arr []), ("extra_key", .str "x")]) =
      .ok ⟨"R", none, .completed, some []⟩ ∧
    parseEntry [] (.obj [("entry_type", .str "completed"),
        ("date", .str "2024-01-01"), ("bogus", .num 1)]) =
      .error .extraForbidden ∧
    parseEntry [] (.obj [("entry_type", .str "completed_at_difficulty"),
        ("date", .str "2024-01-01"), ("difficulty", .str "Hard"),
        ("bogus", .num 1)]) = .error .extraForbidden ∧
    parseEntry [] (.obj [("entry_type", .str "time"),
        ("date", .str "2024-01-01"), ("time", .str "0:01:00"),
        ("bogus", .num 1)]) = .error .extraForbidden ∧
    parseEntry [] (.obj [("entry_type", .str "score"),
        ("date", .str "2024-01-01"), ("score", .num 3),
        ("bogus", .num 1)]) = .error .extraForbidden := by
  refine ⟨rfl, rfl, rfl, rfl, rfl, rfl, rfl⟩

end MiScore
